import Mathlib

/-!
Verification of the two example programs in this repository:

* `series1/usart/spi_slave_interrupt/src/main_s1_xg1_xg13_xg14.c`
  (interrupt-driven USART SPI slave), and
* `series2/timer/timer_pwm_dma/src/main.c`
  (TIMER0 PWM whose duty cycle is streamed by the LDMA).

The C code is shallowly embedded: global C arrays become `List Nat`
fields of an explicit state record, machine integers become `Nat` with
explicit `% 2^w` where the width matters, array accesses become checked
operations returning `Option`, and hardware-register writes become an
event log.
-/

/-- Size of the data buffers in the SPI slave example (`#define BUFLEN 10`). -/
def BUFLEN : Nat := 10

/-- Modulus of the C type `uint8_t`. -/
def UINT8_MOD : Nat := 2 ^ 8

/-- Modulus of the C type `uint16_t`. -/
def UINT16_MOD : Nat := 2 ^ 16

/-- Modulus of the C type `uint32_t`. -/
def UINT32_MOD : Nat := 2 ^ 32

/-- Mutable program state of the SPI slave example: the two global byte
buffers `outbuf` and `inbuf`, the global `uint32_t bufpos`, the log of
bytes written to the `USART1->TXDATA` register (in write order), and the
level of the activity pin (TIMEPORT/TIMEPIN). -/
structure SpiState where
  inbuf : List Nat
  outbuf : List Nat
  bufpos : Nat
  tx : List Nat
  activity : Bool
deriving Repr, DecidableEq

/-- Bounds-checked C array store `l[i] = v`: `none` models an
out-of-bounds access. -/
def checkedSet (l : List Nat) (i v : Nat) : Option (List Nat) :=
  if i < l.length then some (l.set i v) else none

/-- Bounds-checked C array read `l[i]`: `none` models an out-of-bounds
access. -/
def checkedGet (l : List Nat) (i : Nat) : Option Nat :=
  if i < l.length then some (l.getD i 0) else none

/-- The USART1 receive interrupt handler of the SPI slave example,
invoked with the byte `rxdata` read from `USART1->RXDATA`:

* drives the activity pin high on entry;
* `inbuf[bufpos++] = USART1->RXDATA;` — stores the received byte
  (truncated to `uint8_t`) at the old `bufpos` and post-increments
  `bufpos` (a `uint32_t`, hence the `% UINT32_MOD`);
* `if (bufpos < BUFLEN) USART1->TXDATA = outbuf[bufpos];` — transmits
  the next outgoing byte when bytes remain;
* drives the activity pin low on exit. -/
def USART1_RX_IRQHandler (s : SpiState) (rxdata : Nat) : Option SpiState :=
  (checkedSet s.inbuf s.bufpos (rxdata % UINT8_MOD)).bind fun inbuf1 =>
    let bufpos1 := (s.bufpos + 1) % UINT32_MOD
    if bufpos1 < BUFLEN then
      (checkedGet s.outbuf bufpos1).bind fun b =>
        some { inbuf := inbuf1, outbuf := s.outbuf, bufpos := bufpos1
             , tx := s.tx ++ [b], activity := false }
    else
      some { inbuf := inbuf1, outbuf := s.outbuf, bufpos := bufpos1
           , tx := s.tx, activity := false }

/-- The GPIO odd-pin interrupt handler of the SPI slave example
(selected by the preprocessor because `US1CS_PIN = 9` is odd): it only
clears the GPIO falling-edge interrupt flag and touches no shared
program variable, so on the modelled state it is the identity. -/
def GPIO_ODD_IRQHandler (s : SpiState) : SpiState := s

/-- Program state at the top of one round of `main`'s `while (1)` loop,
just after the pre-transfer code ran: `inbuf[i] = 0` and
`outbuf[i] = (uint8_t) i` for every `i < BUFLEN`, `bufpos = 0`, and
`USART1->TXDATA = outbuf[bufpos]` has transmitted the first byte. The
activity pin was driven low right after that write. -/
def mainRoundInit : SpiState :=
  let outb := (List.range BUFLEN).map (fun i => i % UINT8_MOD)
  { inbuf := List.replicate BUFLEN 0
  , outbuf := outb
  , bufpos := 0
  , tx := [outb.getD 0 0]
  , activity := false }

/-- Runs `USART1_RX_IRQHandler` once for each received byte in `rxs`,
in order. -/
def runHandlers : SpiState → List Nat → Option SpiState
  | s, [] => some s
  | s, r :: rs =>
    match USART1_RX_IRQHandler s r with
    | none => none
    | some s1 => runHandlers s1 rs

/-- What one check of a main-loop condition does: sleep in EM1 or leave
the loop. -/
inductive LoopAction
  | enterEM1
  | exitLoop
deriving Repr, DecidableEq

/-- One check of the SPI example's wait loop
`while (bufpos < BUFLEN) EMU_EnterEM1();`. -/
def spiWaitIter (bufpos : Nat) : LoopAction :=
  if bufpos < BUFLEN then .enterEM1 else .exitLoop

/-- One iteration of the timer example's main loop
`while (1) { EMU_EnterEM1(); }`. -/
def timerMainIter : LoopAction := .enterEM1

/-! ### Shared-variable access sets of the SPI slave example

The SPI slave example coordinates `main` and its interrupt handlers
through global variables.  The lists below record, straight from the
source text, which of the three global program variables each code
region reads or writes (hardware registers and the local loop counter
`i` are not program variables). -/

/-- The three global program variables of the SPI slave example. -/
inductive SharedVar
  | bufposVar
  | inbufVar
  | outbufVar
deriving Repr, DecidableEq

/-- Variables read by the main loop's wait condition
`while (bufpos < BUFLEN)`. -/
def mainWaitCondReads : List SharedVar := [.bufposVar]

/-- Variables written by `USART1_RX_IRQHandler`:
`inbuf[bufpos++] = USART1->RXDATA;` writes `inbuf` and `bufpos` (the
`TXDATA` write and the activity-pin writes touch hardware registers
only). -/
def usart1RxIrqWrites : List SharedVar := [.inbufVar, .bufposVar]

/-- Variables written by `GPIO_ODD_IRQHandler`: it only clears a GPIO
interrupt flag. -/
def gpioOddIrqWrites : List SharedVar := []

/-- Variables written by any interrupt handler of the SPI slave
example. -/
def irqHandlerWrites : List SharedVar := usart1RxIrqWrites ++ gpioOddIrqWrites

/-- Variables the main loop of the SPI slave example reads: `bufpos` in
the wait condition and in `outbuf[bufpos]`, and `outbuf` when writing
`USART1->TXDATA = outbuf[bufpos]`; `inbuf` is only written there. -/
def mainLoopReads : List SharedVar := [.bufposVar, .outbufVar]

/-- The values `main` assigns to `bufpos`: the single assignment is
`bufpos = 0;` at the top of each transfer round. -/
def mainLoopBufposWrites : List Nat := [0]

/-! ### Interrupt-handler entry points defined by each source file -/

/-- Names of interrupt-handler entry points appearing in the two source
files. -/
inductive IrqHandlerName
  | gpioOddIrq
  | gpioEvenIrq
  | usart1RxIrq
deriving Repr, DecidableEq

/-- The chip-select pin number of the SPI slave example
(`#define US1CS_PIN 9`). -/
def US1CS_PIN : Nat := 9

/-- Interrupt-handler entry points defined by the SPI slave source
file: the preprocessor conditional `#if (US1CS_PIN & 1)` keeps
`GPIO_ODD_IRQHandler` (as `US1CS_PIN = 9` is odd) and discards
`GPIO_EVEN_IRQHandler`; `USART1_RX_IRQHandler` is defined
unconditionally. -/
def spiFileIrqHandlers : List IrqHandlerName :=
  (if US1CS_PIN % 2 = 1 then [.gpioOddIrq] else [.gpioEvenIrq]) ++ [.usart1RxIrq]

/-- Interrupt-handler entry points defined by the timer PWM DMA source
file: it defines none (the LDMA done interrupt is explicitly disabled). -/
def timerFileIrqHandlers : List IrqHandlerName := []

/-! ### The timer PWM DMA example -/

/-- Size of the duty-cycle buffer in the timer example
(`#define BUFFER_SIZE 11`). -/
def BUFFER_SIZE : Nat := 11

/-- The constant duty-cycle table
`static const uint16_t dutyCyclePercentages[BUFFER_SIZE]`. -/
def dutyCyclePercentages : List Nat :=
  [0, 10, 20, 30, 40, 50, 60, 70, 80, 90, 100]

/-- The value stored by one `populateBuffer` iteration:
`(uint16_t) (TIMER_TopGet(TIMER0) * dutyCyclePercentages[i] / 100)`.
`TIMER_TopGet` returns `uint32_t`, so the product wraps at `2^32`
before the unsigned division, and the cast truncates to `2^16`. -/
def pwmCompareValue (top d : Nat) : Nat :=
  top * d % UINT32_MOD / 100 % UINT16_MOD

/-- One iteration of `populateBuffer`'s `for` loop at index `i`, with
both array accesses bounds-checked. -/
def populateBufferBody (top : Nat) (acc : Option (List Nat)) (i : Nat) :
    Option (List Nat) :=
  match acc with
  | none => none
  | some buf =>
    match checkedGet dutyCyclePercentages i with
    | none => none
    | some d => checkedSet buf i (pwmCompareValue top d)

/-- `populateBuffer`, parameterised by the TIMER0 top value: iterates
`for (uint32_t i = 0; i < BUFFER_SIZE; i++)` over the zero-initialised
static array `buffer`. -/
def populateBuffer (top : Nat) : Option (List Nat) :=
  (List.range BUFFER_SIZE).foldl (populateBufferBody top)
    (some (List.replicate BUFFER_SIZE 0))

/-! ### The LDMA configuration of the timer example

The descriptor-constructing macros live in the SDK header `em_ldma.h`,
outside this repository's sources. -/

/-- Addresses appearing in the LDMA setup of the timer example. -/
inductive LdmaAddr
  | bufferArr
  | timer0CC0OCB
deriving Repr, DecidableEq

/-- LDMA unit transfer sizes. -/
inductive LdmaSize
  | byte
  | half
  | word
deriving Repr, DecidableEq

/-- LDMA link address modes. -/
inductive LdmaLinkMode
  | absolute
  | relative
deriving Repr, DecidableEq

/-- LDMA peripheral request signals used by the timer example. -/
inductive LdmaSignal
  | timer0CC0
deriving Repr, DecidableEq

/-- The fields of an LDMA transfer descriptor that the timer example
sets. `xferCnt` holds the number of unit transfers minus one, as in the
hardware register. -/
structure LdmaDescriptor where
  xferCnt : Nat
  srcAddr : LdmaAddr
  dstAddr : LdmaAddr
  size : LdmaSize
  doneIfs : Nat
  link : Nat
  linkMode : LdmaLinkMode
  linkAddr : Int
deriving Repr, DecidableEq

/-- The LDMA transfer configuration: the peripheral request signal that
triggers each unit transfer. -/
structure LdmaTransferCfg where
  ldmaReqSel : LdmaSignal
deriving Repr, DecidableEq

/-- Modelled from the spec: the SDK macro
`LDMA_DESCRIPTOR_LINKREL_M2P_BYTE(src, dest, count, linkjmp)` of
`em_ldma.h` is not part of this repository's sources.  Following its
documented semantics and the call-site comments in `initLdma`
(`linkjmp = 0` is commented "Link to same descriptor"), it builds a
memory-to-peripheral transfer descriptor performing `count` unit
transfers (`xferCnt = count - 1`) of byte size, with the done-interrupt
flag set, and with the link bit set in relative mode at offset
`linkjmp * 4` words, so that `linkjmp = 0` links the descriptor to
itself. -/
def LDMA_DESCRIPTOR_LINKREL_M2P_BYTE (src dst : LdmaAddr) (count : Nat)
    (linkjmp : Int) : LdmaDescriptor :=
  { xferCnt := count - 1
  , srcAddr := src
  , dstAddr := dst
  , size := .byte
  , doneIfs := 1
  , link := 1
  , linkMode := .relative
  , linkAddr := linkjmp * 4 }

/-- Modelled from the spec: the SDK macro
`LDMA_TRANSFER_CFG_PERIPHERAL(signal)` of `em_ldma.h` builds a transfer
configuration triggered by the given peripheral signal. -/
def LDMA_TRANSFER_CFG_PERIPHERAL (sig : LdmaSignal) : LdmaTransferCfg :=
  { ldmaReqSel := sig }

/-- The arguments `initLdma` passes to `LDMA_StartTransfer`. -/
structure LdmaStart where
  channelNum : Nat
  cfg : LdmaTransferCfg
  descriptor : LdmaDescriptor
deriving Repr, DecidableEq

/-- `initLdma`: channel 0, transfer triggered by the `TIMER0_CC0`
signal, descriptor built by
`LDMA_DESCRIPTOR_LINKREL_M2P_BYTE(&buffer, &TIMER0->CC[0].OCB,
BUFFER_SIZE, 0)` and then patched to half-word unit size
(`descriptor.xfer.size = ldmaCtrlSizeHalf`) with the done interrupt
disabled (`descriptor.xfer.doneIfs = 0`). -/
def initLdma : LdmaStart :=
  let transferConfig := LDMA_TRANSFER_CFG_PERIPHERAL .timer0CC0
  let d0 := LDMA_DESCRIPTOR_LINKREL_M2P_BYTE .bufferArr .timer0CC0OCB BUFFER_SIZE 0
  let descriptor := { d0 with size := .half, doneIfs := 0 }
  { channelNum := 0, cfg := transferConfig, descriptor := descriptor }

/-- What the LDMA channel does once a descriptor's unit transfers have
completed. -/
inductive LdmaNext
  | stop
  | reloadSelf
  | reloadOther
deriving Repr, DecidableEq

/-- LDMA completion behaviour: with the link bit clear the channel
stops; with the link bit set it loads the linked descriptor, which is
the same descriptor exactly when the link is relative with offset 0. -/
def descriptorAfterDone (d : LdmaDescriptor) : LdmaNext :=
  if d.link = 0 then .stop
  else if d.linkMode = .relative ∧ d.linkAddr = 0 then .reloadSelf
  else .reloadOther

/-! ### Helper lemmas -/

/-- Setting index `i` leaves every other position of a list unchanged. -/
theorem getD_set_ne (l : List Nat) (i j v : Nat) (h : j ≠ i) :
    (l.set i v).getD j 0 = l.getD j 0 := by
  induction l generalizing i j with
  | nil => simp [List.set]
  | cons a t ih =>
    cases i with
    | zero =>
      cases j with
      | zero => exact absurd rfl h
      | succ j => simp [List.set, List.getD]
    | succ i =>
      cases j with
      | zero => simp [List.set, List.getD]
      | succ j =>
        simp only [List.set, List.getD_cons_succ]
        exact ih i j (fun he => h (by rw [he]))

/-- Characterisation of one `USART1_RX_IRQHandler` invocation on a
well-formed state with `bufpos < BUFLEN`: the received byte is stored
at the old `bufpos`, `bufpos` is incremented, and `outbuf[bufpos]` is
transmitted exactly when the new `bufpos` is still below `BUFLEN`. -/
theorem rxHandler_spec (s : SpiState) (r : Nat)
    (hin : s.inbuf.length = BUFLEN) (hout : s.outbuf.length = BUFLEN)
    (hp : s.bufpos < BUFLEN) :
    USART1_RX_IRQHandler s r =
      some { inbuf := s.inbuf.set s.bufpos (r % UINT8_MOD)
           , outbuf := s.outbuf
           , bufpos := s.bufpos + 1
           , tx := s.tx ++ (if s.bufpos + 1 < BUFLEN then
                              [s.outbuf.getD (s.bufpos + 1) 0] else [])
           , activity := false } := by
  have h1 : s.bufpos < s.inbuf.length := hin ▸ hp
  have hp10 : s.bufpos < 10 := hp
  have h2 : (s.bufpos + 1) % UINT32_MOD = s.bufpos + 1 := by
    apply Nat.mod_eq_of_lt
    show s.bufpos + 1 < 2 ^ 32
    omega
  unfold USART1_RX_IRQHandler checkedSet checkedGet
  rw [if_pos h1]
  simp only [Option.some_bind, h2]
  by_cases h3 : s.bufpos + 1 < BUFLEN
  · have h4 : s.bufpos + 1 < s.outbuf.length := hout ▸ h3
    rw [if_pos h3, if_pos h4, if_pos h3]
    simp only [Option.some_bind]
  · rw [if_neg h3, if_neg h3, List.append_nil]

/-- `populateBuffer` evaluates, for any top value, to the table of
compare values, with both bounds checks passing at every index. -/
theorem populateBuffer_eq (top : Nat) :
    populateBuffer top =
      some (dutyCyclePercentages.map (pwmCompareValue top)) := rfl

/-- Reading the computed duty-cycle table at an in-range index gives
the compare value of the corresponding percentage. -/
theorem getD_map_pwm (T i : Nat) (h : i < BUFFER_SIZE) :
    (dutyCyclePercentages.map (pwmCompareValue T)).getD i 0
      = pwmCompareValue T (dutyCyclePercentages.getD i 0) := by
  have h11 : i < 11 := h
  interval_cases i <;> rfl

/-- The duty-cycle percentage table is nondecreasing. -/
theorem duty_mono : ∀ j, j < BUFFER_SIZE → ∀ i, i ≤ j →
    dutyCyclePercentages.getD i 0 ≤ dutyCyclePercentages.getD j 0 := by
  decide

/-- Every duty-cycle percentage is at most 100. -/
theorem duty_le_100 : ∀ i, i < BUFFER_SIZE →
    dutyCyclePercentages.getD i 0 ≤ 100 := by
  decide

/-- Without 32-bit overflow (`T * 100 < 2^32`) and with `T` in
`uint16_t` range, the compare value for percentage `d ≤ 100` is plainly
`T * d / 100`, and it never exceeds `T`. -/
theorem pwm_noOverflow (T d : Nat) (hT : T < UINT16_MOD)
    (hTd : T * 100 < UINT32_MOD) (hd : d ≤ 100) :
    pwmCompareValue T d = T * d / 100 ∧ T * d / 100 ≤ T := by
  have hmul : T * d ≤ T * 100 := Nat.mul_le_mul_left T hd
  have h1 : T * d < UINT32_MOD := lt_of_le_of_lt hmul hTd
  have hdiv : T * d / 100 ≤ T := by
    calc T * d / 100 ≤ T * 100 / 100 := Nat.div_le_div_right hmul
    _ = T := Nat.mul_div_cancel T (by norm_num)
  refine ⟨?_, hdiv⟩
  unfold pwmCompareValue
  rw [Nat.mod_eq_of_lt h1, Nat.mod_eq_of_lt (lt_of_le_of_lt hdiv hT)]

/-! ### Claim theorems -/

/-- C1: Each invocation of `USART1_RX_IRQHandler` with `bufpos = p`
performs exactly the buffer-advance step: it stores the byte read from
`USART1->RXDATA` into `inbuf[p]`, increments `bufpos` to `p + 1`, and,
if and only if `p + 1 < BUFLEN`, writes `outbuf[p + 1]` to
`USART1->TXDATA`; it transmits nothing when `p + 1 ≥ BUFLEN`. -/
theorem usart1RxIrqHandler_bufferAdvance (s : SpiState) (r : Nat)
    (hin : s.inbuf.length = BUFLEN) (hout : s.outbuf.length = BUFLEN)
    (hp : s.bufpos < BUFLEN) :
    USART1_RX_IRQHandler s r =
      some { inbuf := s.inbuf.set s.bufpos (r % UINT8_MOD)
           , outbuf := s.outbuf
           , bufpos := s.bufpos + 1
           , tx := s.tx ++ (if s.bufpos + 1 < BUFLEN then
                              [s.outbuf.getD (s.bufpos + 1) 0] else [])
           , activity := false } :=
  rxHandler_spec s r hin hout hp

/-- Witness for C1 at the concrete state reached at the top of a
transfer round and the received value 300. -/
theorem usart1RxIrqHandler_bufferAdvance_witness :
    USART1_RX_IRQHandler mainRoundInit 300 =
      some { inbuf := mainRoundInit.inbuf.set mainRoundInit.bufpos (300 % UINT8_MOD)
           , outbuf := mainRoundInit.outbuf
           , bufpos := mainRoundInit.bufpos + 1
           , tx := mainRoundInit.tx ++ (if mainRoundInit.bufpos + 1 < BUFLEN then
                      [mainRoundInit.outbuf.getD (mainRoundInit.bufpos + 1) 0] else [])
           , activity := false } :=
  usart1RxIrqHandler_bufferAdvance mainRoundInit 300 (by decide) (by decide) (by decide)

/-- C2: Every array access in both programs stays inside its
fixed-size buffer: when `USART1_RX_IRQHandler` is invoked with
`bufpos < BUFLEN` on the well-formed buffers, its checked accesses
`inbuf[bufpos]` and `outbuf[bufpos]` are in bounds (the handler does
not hit the out-of-bounds `none` branch), and for every iteration of
`populateBuffer` the checked accesses `buffer[i]` and
`dutyCyclePercentages[i]` with `i < BUFFER_SIZE` are in bounds. -/
theorem arrayAccesses_inBounds (s : SpiState) (r top : Nat)
    (hin : s.inbuf.length = BUFLEN) (hout : s.outbuf.length = BUFLEN)
    (hp : s.bufpos < BUFLEN) :
    (USART1_RX_IRQHandler s r).isSome ∧ (populateBuffer top).isSome := by
  constructor
  · rw [rxHandler_spec s r hin hout hp]
    rfl
  · rw [populateBuffer_eq top]
    rfl

/-- Witness for C2 at the round-initial SPI state, received value 0,
and timer top value 19000000. -/
theorem arrayAccesses_inBounds_witness :
    (USART1_RX_IRQHandler mainRoundInit 0).isSome ∧
      (populateBuffer 19000000).isSome :=
  arrayAccesses_inBounds mainRoundInit 0 19000000 (by decide) (by decide) (by decide)

/-- C9: `USART1_RX_IRQHandler` invoked with `bufpos = p < BUFLEN`
leaves everything except `inbuf[p]`, `bufpos`, the TXDATA log and the
activity pin unchanged: `outbuf` is never modified and every entry
`inbuf[j]` with `j ≠ p` keeps its value. -/
theorem usart1RxIrqHandler_frame (s : SpiState) (r : Nat) (s1 : SpiState)
    (hin : s.inbuf.length = BUFLEN) (hout : s.outbuf.length = BUFLEN)
    (hp : s.bufpos < BUFLEN)
    (hrun : USART1_RX_IRQHandler s r = some s1) :
    s1.outbuf = s.outbuf ∧
      ∀ j, j ≠ s.bufpos → s1.inbuf.getD j 0 = s.inbuf.getD j 0 := by
  rw [rxHandler_spec s r hin hout hp] at hrun
  cases hrun
  exact ⟨rfl, fun j hj => getD_set_ne s.inbuf s.bufpos j (r % UINT8_MOD) hj⟩

/-- The state produced by the handler from the round-initial state on
received value 77, used to witness C9. -/
def frameWitnessState : SpiState :=
  { inbuf := [77, 0, 0, 0, 0, 0, 0, 0, 0, 0]
  , outbuf := [0, 1, 2, 3, 4, 5, 6, 7, 8, 9]
  , bufpos := 1, tx := [0, 1], activity := false }

/-- Witness for C9: on the concrete run from the round-initial state,
`outbuf` is unchanged and `inbuf[5]` keeps its value. -/
theorem usart1RxIrqHandler_frame_witness :
    frameWitnessState.outbuf = mainRoundInit.outbuf ∧
      frameWitnessState.inbuf.getD 5 0 = mainRoundInit.inbuf.getD 5 0 := by
  have h := usart1RxIrqHandler_frame mainRoundInit 77 frameWitnessState
    (by decide) (by decide) (by decide) (by decide)
  exact ⟨h.1, h.2 5 (by decide)⟩

set_option maxHeartbeats 2000000 in
/-- C3: Over one complete transfer round (main sets `bufpos = 0` and
writes `outbuf[0]` to TXDATA, then `USART1_RX_IRQHandler` runs `BUFLEN`
times on the received bytes `r0 … r9`), exactly one byte is shifted out
per byte shifted in: the bytes written to `USART1->TXDATA` are
`outbuf[0], …, outbuf[BUFLEN-1]` in order, each exactly once; the
`i`-th received byte is stored at `inbuf[i]` (as a `uint8_t`) for every
`i < BUFLEN`; and `bufpos` ends at `BUFLEN`. -/
theorem spiRound_oneInOneOut (r0 r1 r2 r3 r4 r5 r6 r7 r8 r9 : Nat) :
    ((runHandlers mainRoundInit [r0, r1, r2, r3, r4, r5, r6, r7, r8, r9]).map
        SpiState.tx
      = some ((List.range BUFLEN).map (fun i => mainRoundInit.outbuf.getD i 0))) ∧
    (∀ i, i < BUFLEN →
      (((runHandlers mainRoundInit
            [r0, r1, r2, r3, r4, r5, r6, r7, r8, r9]).map SpiState.inbuf).getD []).getD i 0
        = [r0, r1, r2, r3, r4, r5, r6, r7, r8, r9].getD i 0 % UINT8_MOD) ∧
    ((runHandlers mainRoundInit [r0, r1, r2, r3, r4, r5, r6, r7, r8, r9]).map
        SpiState.bufpos = some BUFLEN) := by
  refine ⟨rfl, ?_, rfl⟩
  intro i hi
  have hi10 : i < 10 := hi
  interval_cases i <;> rfl

/-- Witness for C3 at the concrete received bytes 20 … 29. -/
theorem spiRound_oneInOneOut_witness :
    ((runHandlers mainRoundInit [20, 21, 22, 23, 24, 25, 26, 27, 28, 29]).map
        SpiState.tx = some [0, 1, 2, 3, 4, 5, 6, 7, 8, 9]) ∧
    (((runHandlers mainRoundInit
          [20, 21, 22, 23, 24, 25, 26, 27, 28, 29]).map SpiState.inbuf).getD []).getD 3 0
        = 23 := by
  have h := spiRound_oneInOneOut 20 21 22 23 24 25 26 27 28 29
  exact ⟨h.1.trans (by decide), (h.2.1 3 (by decide)).trans (by decide)⟩

/-- C4 counterexample: the claim that the LDMA channel stops after the
descriptor's `BUFFER_SIZE` unit transfers is false for the descriptor
`initLdma` starts: its link bit is set, so the channel does not stop. -/
theorem initLdma_descriptor_not_oneShot :
    ¬ descriptorAfterDone initLdma.descriptor = LdmaNext.stop := by
  decide

/-- C4 amended: the descriptor configured by `initLdma` is a
continuously looping linked-descriptor configuration: after its
`BUFFER_SIZE` unit transfers complete, the channel reloads the same
descriptor (relative link, offset 0) and repeats the transfer instead
of stopping. -/
theorem initLdma_descriptor_selfLinking :
    descriptorAfterDone initLdma.descriptor = LdmaNext.reloadSelf ∧
      initLdma.descriptor.xferCnt + 1 = BUFFER_SIZE := by
  decide

/-- C5 counterexample: the claim that each source file defines at most
one interrupt-handler entry point fails on the SPI slave file, which
defines two. -/
theorem spiFile_not_atMostOneIrqHandler :
    ¬ (spiFileIrqHandlers.length ≤ 1 ∧ timerFileIrqHandlers.length ≤ 1) := by
  decide

/-- C5 amended: the timer example defines no interrupt handler, and
the SPI slave example defines exactly two interrupt-handler entry
points: the GPIO chip-select handler kept by the preprocessor (the odd
one, since `US1CS_PIN = 9`) and `USART1_RX_IRQHandler`; so each file
defines at most two. -/
theorem irqHandlersPerFile :
    spiFileIrqHandlers = [IrqHandlerName.gpioOddIrq, IrqHandlerName.usart1RxIrq] ∧
      timerFileIrqHandlers = [] := by
  decide

/-- C6: `initLdma` configures LDMA channel 0 to move values from the
memory array `buffer` to the peripheral register `TIMER0->CC[0].OCB`,
triggered by the `TIMER0_CC0` peripheral signal, with half-word unit
size and `BUFFER_SIZE` (= 11) unit transfers. -/
theorem initLdma_config :
    initLdma.channelNum = 0 ∧
      initLdma.descriptor.srcAddr = LdmaAddr.bufferArr ∧
      initLdma.descriptor.dstAddr = LdmaAddr.timer0CC0OCB ∧
      initLdma.cfg.ldmaReqSel = LdmaSignal.timer0CC0 ∧
      initLdma.descriptor.size = LdmaSize.half ∧
      initLdma.descriptor.xferCnt + 1 = BUFFER_SIZE := by
  decide

/-- C7: Both main loops enter a low-power wait state between hardware
events: every iteration of the timer example's main loop enters EM1,
and each check of the SPI example's wait loop enters EM1 exactly when
`bufpos < BUFLEN` and leaves the loop exactly when `bufpos ≥ BUFLEN`,
so the loop never busy-waits without entering EM1 and never remains
waiting once `bufpos ≥ BUFLEN`. -/
theorem mainLoops_lowPowerWait :
    timerMainIter = LoopAction.enterEM1 ∧
      (∀ p, spiWaitIter p = LoopAction.enterEM1 ↔ p < BUFLEN) ∧
      (∀ p, spiWaitIter p = LoopAction.exitLoop ↔ BUFLEN ≤ p) := by
  refine ⟨rfl, fun p => ?_, fun p => ?_⟩ <;>
    unfold spiWaitIter <;> split <;> simp_all

/-- C8: In the SPI slave example the main loop and interrupt handlers
coordinate through the single shared scalar `bufpos`: the wait
condition reads only `bufpos`; `bufpos` is the only variable both
written by an interrupt handler and read by the main loop;
`USART1_RX_IRQHandler` increments `bufpos` by one while
`GPIO_ODD_IRQHandler` leaves it unchanged, so the RX handler is the
only code that increments it; and `main` writes `bufpos` only by the
single reset `bufpos = 0`. -/
theorem singleSharedScalarCoordination :
    mainWaitCondReads = [SharedVar.bufposVar] ∧
      irqHandlerWrites.inter mainLoopReads = [SharedVar.bufposVar] ∧
      mainLoopBufposWrites = [0] ∧
      (∀ s : SpiState, ∀ r : Nat, ∀ s1 : SpiState,
        s.inbuf.length = BUFLEN → s.outbuf.length = BUFLEN →
        s.bufpos < BUFLEN → USART1_RX_IRQHandler s r = some s1 →
        s1.bufpos = s.bufpos + 1) ∧
      (∀ s : SpiState, (GPIO_ODD_IRQHandler s).bufpos = s.bufpos) := by
  refine ⟨rfl, by decide, rfl, ?_, fun s => rfl⟩
  intro s r s1 hin hout hp hrun
  rw [rxHandler_spec s r hin hout hp] at hrun
  cases hrun
  rfl

/-- The state produced by the handler from the round-initial state on
received value 3, used to witness C8. -/
def sharedWitnessState : SpiState :=
  { inbuf := [3, 0, 0, 0, 0, 0, 0, 0, 0, 0]
  , outbuf := [0, 1, 2, 3, 4, 5, 6, 7, 8, 9]
  , bufpos := 1, tx := [0, 1], activity := false }

/-- Witness for C8: the write/read intersection is exactly `bufpos`,
and on a concrete invocation the RX handler takes `bufpos` from 0 to
1. -/
theorem singleSharedScalarCoordination_witness :
    irqHandlerWrites.inter mainLoopReads = [SharedVar.bufposVar] ∧
      sharedWitnessState.bufpos = mainRoundInit.bufpos + 1 := by
  have h := singleSharedScalarCoordination
  exact ⟨h.2.1, h.2.2.2.1 mainRoundInit 3 sharedWitnessState
    (by decide) (by decide) (by decide) (by decide)⟩

/-- C10: After `populateBuffer` runs with TIMER0 top value `T`,
`buffer[i]` equals the low 16 bits of `T * dutyCyclePercentages[i] / 100`
(integer division in 32-bit arithmetic) for every `i < BUFFER_SIZE`;
and when `T < 2^16` and `T * 100 < 2^32`, the entries are
nondecreasing, `buffer[0] = 0`, `buffer[BUFFER_SIZE - 1] = T`, and
every entry is at most `T`, so every duty-cycle value streamed by the
DMA is at most the PWM period. -/
theorem populateBuffer_dutyCycles (T : Nat) :
    (∀ i, i < BUFFER_SIZE →
        ((populateBuffer T).getD []).getD i 0
          = T * dutyCyclePercentages.getD i 0 % UINT32_MOD / 100 % UINT16_MOD) ∧
    (T < UINT16_MOD → T * 100 < UINT32_MOD →
      (∀ i j, i ≤ j → j < BUFFER_SIZE →
          ((populateBuffer T).getD []).getD i 0
            ≤ ((populateBuffer T).getD []).getD j 0) ∧
      ((populateBuffer T).getD []).getD 0 0 = 0 ∧
      ((populateBuffer T).getD []).getD (BUFFER_SIZE - 1) 0 = T ∧
      (∀ i, i < BUFFER_SIZE → ((populateBuffer T).getD []).getD i 0 ≤ T)) := by
  rw [populateBuffer_eq T]
  simp only [Option.getD_some]
  constructor
  · intro i hi
    rw [getD_map_pwm T i hi]
    rfl
  · intro hT hT2
    refine ⟨?_, ?_, ?_, ?_⟩
    · intro i j hij hj
      have hi : i < BUFFER_SIZE := lt_of_le_of_lt hij hj
      rw [getD_map_pwm T i hi, getD_map_pwm T j hj]
      rw [(pwm_noOverflow T _ hT hT2 (duty_le_100 i hi)).1,
          (pwm_noOverflow T _ hT hT2 (duty_le_100 j hj)).1]
      exact Nat.div_le_div_right
        (Nat.mul_le_mul_left T (duty_mono j hj i hij))
    · rw [getD_map_pwm T 0 (by decide)]
      have h0 : dutyCyclePercentages.getD 0 0 = 0 := by decide
      rw [h0]
      simp [pwmCompareValue]
    · rw [getD_map_pwm T (BUFFER_SIZE - 1) (by decide)]
      have h100 : dutyCyclePercentages.getD (BUFFER_SIZE - 1) 0 = 100 := by decide
      rw [h100, (pwm_noOverflow T 100 hT hT2 (le_refl 100)).1]
      exact Nat.mul_div_cancel T (by norm_num)
    · intro i hi
      rw [getD_map_pwm T i hi,
          (pwm_noOverflow T _ hT hT2 (duty_le_100 i hi)).1]
      exact (pwm_noOverflow T _ hT hT2 (duty_le_100 i hi)).2

/-- Witness for C10 at top value 19000: the entry formula at index 5
and the final entry equal to the top value. -/
theorem populateBuffer_dutyCycles_witness :
    ((populateBuffer 19000).getD []).getD 5 0
        = 19000 * dutyCyclePercentages.getD 5 0 % UINT32_MOD / 100 % UINT16_MOD ∧
      ((populateBuffer 19000).getD []).getD (BUFFER_SIZE - 1) 0 = 19000 := by
  have h := populateBuffer_dutyCycles 19000
  exact ⟨h.1 5 (by decide), (h.2 (by decide) (by decide)).2.2.1⟩
